import Mathlib

/-!
Verification of the robot-arm kinematics core.

Shallow embedding of the TypeScript sources:
- `src/lib/pipette-vertical.ts` — the `j4` derivation rule;
- `src/app/page.tsx` (ThreeScene) — chain construction (`createRobotArm`),
  the joint-angle update effect, and `degToRad`;
- `src/components/slider.tsx` — the `ArmControl` pose input surface.

JavaScript numbers are embedded as rationals (every value the program
manipulates — degrees, the constants 90 and 180 — is rational, and the
arithmetic involved is exact linear arithmetic).  A rotation value stored on a
transform node is a rational multiple of π; we store its rational coefficient
and interpret it into ℝ with `radValue`.
-/

namespace RobotArm

/-- From `src/lib/pipette-vertical.ts`, `calculateVerticalPipetteTilt`:
sums the pitch rotations and returns `90 - cumulativePitch`. -/
def calculateVerticalPipetteTilt (j1 j2 j3 : ℚ) : ℚ :=
  let cumulativePitch := j1 + j2 + j3
  let requiredJ4 := 90 - cumulativePitch
  requiredJ4

/-- From `src/app/page.tsx`, `degToRad = (degrees) => degrees * Math.PI / 180`.
Result is the rational coefficient of π: `degToRad d` represents
`(d / 180) · π = d · π / 180` radians. -/
def degToRad (degrees : ℚ) : ℚ :=
  degrees / 180

/-- Interpretation of a stored rotation coefficient as a real radian value. -/
noncomputable def radValue (c : ℚ) : ℝ :=
  (c : ℝ) * Real.pi

/-- Euler rotation of a THREE.Group transform node (coefficients of π).
A fresh group has rotation `(0, 0, 0)`. -/
structure Rotation where
  x : ℚ
  y : ℚ
  z : ℚ
deriving DecidableEq

/-- The `jointGroupsRef.current` record of `ThreeScene`: five independently
nullable references to the joint transform nodes, each holding that node's
local rotation. -/
structure NodeRefs where
  j0 : Option Rotation
  j1 : Option Rotation
  j2 : Option Rotation
  j3 : Option Rotation
  j4 : Option Rotation
deriving DecidableEq

/-- Initial value of `jointGroupsRef`: all five references are `null`
(the Uninitialized state, before `createRobotArm` runs). -/
def initialRefs : NodeRefs :=
  ⟨none, none, none, none, none⟩

/-- The chain is Ready when all five transform nodes exist. -/
def ready (s : NodeRefs) : Bool :=
  s.j0.isSome && s.j1.isSome && s.j2.isSome && s.j3.isSome && s.j4.isSome

/-- The 4-tuple of authoritative joint angles (degrees), `JointAngles` in
`src/app/page.tsx` and `src/components/slider.tsx`. -/
structure JointAngles where
  j0 : ℚ
  j1 : ℚ
  j2 : ℚ
  j3 : ℚ
deriving DecidableEq

/-- `HOME_POSE` of `src/app/page.tsx` (`j4` is not a field there; it is
calculated automatically). -/
def HOME_POSE : JointAngles :=
  { j0 := 0, j1 := -60, j2 := 20, j3 := 30 }

/-- `createRobotArm` of `src/app/page.tsx`, restricted to the rotations it
writes on the five joint groups: `j0Group.rotation.y = degToRad(HOME_POSE.j0)`,
`jkGroup.rotation.x = degToRad(HOME_POSE.jk)` for k = 1..3, and
`j4Group.rotation.x = degToRad(calculateVerticalPipetteTilt(HOME_POSE.j1,
HOME_POSE.j2, HOME_POSE.j3))`; every other rotation component keeps the
THREE.Group default 0.  This is the state `jointGroupsRef.current` holds as
soon as construction finishes, before the animation loop renders a frame. -/
def createRobotArm : NodeRefs :=
  { j0 := some ⟨0, degToRad HOME_POSE.j0, 0⟩
    j1 := some ⟨degToRad HOME_POSE.j1, 0, 0⟩
    j2 := some ⟨degToRad HOME_POSE.j2, 0, 0⟩
    j3 := some ⟨degToRad HOME_POSE.j3, 0, 0⟩
    j4 := some ⟨degToRad (calculateVerticalPipetteTilt HOME_POSE.j1 HOME_POSE.j2 HOME_POSE.j3),
                0, 0⟩ }

/-- The `j4` computed by the update effect:
`calculateVerticalPipetteTilt(j1, j2, j3)`. -/
def derivedJ4 (a : JointAngles) : ℚ :=
  calculateVerticalPipetteTilt a.j1 a.j2 a.j3

/-- Body of the joint-angle update effect of `src/app/page.tsx` after its
guard: computes `j4`, then for each joint group that exists writes the one
rotation component for that joint (`rotation.y` for `j0`, `rotation.x` for
`j1..j4`), leaving absent (null) nodes untouched. -/
def applyPose (a : JointAngles) (refs : NodeRefs) : NodeRefs :=
  let j4 := calculateVerticalPipetteTilt a.j1 a.j2 a.j3
  { j0 := refs.j0.map fun n => { n with y := degToRad a.j0 }
    j1 := refs.j1.map fun n => { n with x := degToRad a.j1 }
    j2 := refs.j2.map fun n => { n with x := degToRad a.j2 }
    j3 := refs.j3.map fun n => { n with x := degToRad a.j3 }
    j4 := refs.j4.map fun n => { n with x := degToRad j4 } }

/-- The joint-angle update effect of `src/app/page.tsx`, guard included:
`if (!jointAngles || !isClient) return;` then the per-node writes. -/
def updateEffect (isClient : Bool) (jointAngles : Option JointAngles)
    (refs : NodeRefs) : NodeRefs :=
  match jointAngles, isClient with
  | none, _ => refs
  | some _, false => refs
  | some a, true => applyPose a refs

/-- The keys of the four authoritative joints (`keyof JointAngles`). -/
inductive JointKey
  | j0
  | j1
  | j2
  | j3
deriving DecidableEq

/-- Field lookup on a `JointAngles` record. -/
def JointAngles.get (a : JointAngles) : JointKey → ℚ
  | .j0 => a.j0
  | .j1 => a.j1
  | .j2 => a.j2
  | .j3 => a.j3

/-- `handleJointChange` of `src/components/slider.tsx`:
`newJoints = { ...joints, [joint]: value }`, which is then emitted whole via
`onJointChange?.(newJoints)`. -/
def handleJointChange (joints : JointAngles) (joint : JointKey) (value : ℚ) :
    JointAngles :=
  match joint with
  | .j0 => { joints with j0 := value }
  | .j1 => { joints with j1 := value }
  | .j2 => { joints with j2 := value }
  | .j3 => { joints with j3 := value }

/-- The `(min, max, step)` attribute triple passed to a `Slider`
(and through it to the underlying HTML range input). -/
structure SliderSpec where
  min : ℚ
  max : ℚ
  step : ℚ
deriving DecidableEq

/-- The J0 (yaw) slider of `ArmControl`: `min={0} max={360} step={1}`. -/
def j0Slider : SliderSpec := ⟨0, 360, 1⟩

/-- The J1 (pitch) slider of `ArmControl`: `min={-90} max={90} step={1}`. -/
def j1Slider : SliderSpec := ⟨-90, 90, 1⟩

/-- The J2 (pitch) slider of `ArmControl`: `min={-90} max={90} step={1}`. -/
def j2Slider : SliderSpec := ⟨-90, 90, 1⟩

/-- The J3 (pitch) slider of `ArmControl`: `min={-90} max={90} step={1}`. -/
def j3Slider : SliderSpec := ⟨-90, 90, 1⟩

/-- Modelled from the spec: the widget behind each control is an HTML range
input (rendering-shell plumbing, not in the core sources); per its standard
contract it yields exactly the values `min + k·step` lying in the inclusive
interval `[min, max]`, with no wrap-around.  `ArmControl` adds no further
validation (`handleChange` is a bare `parseFloat`). -/
def SliderSpec.producible (s : SliderSpec) (v : ℚ) : Prop :=
  s.min ≤ v ∧ v ≤ s.max ∧ ∃ k : ℕ, v = s.min + k * s.step

/-- `applyPose` always overwrites exactly the per-joint rotation components,
so the pose applied last fully determines them. -/
lemma applyPose_applyPose (p1 p2 : JointAngles) (s : NodeRefs) :
    applyPose p2 (applyPose p1 s) = applyPose p2 s := by
  rcases s with ⟨o0, o1, o2, o3, o4⟩
  rcases o0 with _ | n0 <;> rcases o1 with _ | n1 <;> rcases o2 with _ | n2 <;>
    rcases o3 with _ | n3 <;> rcases o4 with _ | n4 <;> rfl

/-- C1: for every rational input triple `(j1, j2, j3)` — in particular for
values outside the control domains — the derivation function returns exactly
`90 - (j1 + j2 + j3)`, with no clamping or other modification. -/
theorem calculateVerticalPipetteTilt_exact (j1 j2 j3 : ℚ) :
    calculateVerticalPipetteTilt j1 j2 j3 = 90 - (j1 + j2 + j3) := rfl

/-- C2: at chain construction the home `j4` applied to the terminal joint's
node is computed by the derivation rule from the home angles
`j1 = -60, j2 = 20, j3 = 30` and equals 100 degrees, and the full home pose
(all five rotations) is already in place in the constructed state — the one
the first rendered frame reads. -/
theorem createRobotArm_home_pose :
    calculateVerticalPipetteTilt HOME_POSE.j1 HOME_POSE.j2 HOME_POSE.j3 = 100 ∧
    createRobotArm.j4 = some ⟨degToRad 100, 0, 0⟩ ∧
    createRobotArm = applyPose HOME_POSE createRobotArm ∧
    ready createRobotArm = true := by
  refine ⟨?_, ?_, rfl, rfl⟩
  · norm_num [calculateVerticalPipetteTilt, HOME_POSE]
  · simp only [createRobotArm, HOME_POSE, calculateVerticalPipetteTilt, degToRad,
      Option.some.injEq, Rotation.mk.injEq]
    norm_num

/-- C3 counterexample: the value 360 is producible by the J0 control
(it is `min + 360·step` and lies within the inclusive `[min, max]` of the
range input), yet `360 ∉ [0, 360)`; there is no wrapping at 360. -/
theorem j0Slider_reaches_360 :
    j0Slider.producible 360 ∧ ¬ ((0:ℚ) ≤ 360 ∧ (360:ℚ) < 360) := by
  refine ⟨⟨by norm_num [j0Slider], by norm_num [j0Slider], 360, by norm_num [j0Slider]⟩, ?_⟩
  rintro ⟨-, h⟩
  exact absurd h (by norm_num)

/-- C3 amended: the J0 control only produces values in the closed interval
`[0, 360]` (360 itself is attainable; nothing wraps), and the J1, J2, J3
controls only produce values in the closed interval `[-90, 90]`. -/
theorem slider_bounds (v : ℚ) :
    (j0Slider.producible v → 0 ≤ v ∧ v ≤ 360) ∧
    (j1Slider.producible v → -90 ≤ v ∧ v ≤ 90) ∧
    (j2Slider.producible v → -90 ≤ v ∧ v ≤ 90) ∧
    (j3Slider.producible v → -90 ≤ v ∧ v ≤ 90) := by
  refine ⟨fun h => ⟨h.1, h.2.1⟩, fun h => ⟨h.1, h.2.1⟩,
    fun h => ⟨h.1, h.2.1⟩, fun h => ⟨h.1, h.2.1⟩⟩

/-- Witness for C3's amended theorem at the concrete values 360 and 90. -/
theorem slider_bounds_witness :
    ((0:ℚ) ≤ 360 ∧ (360:ℚ) ≤ 360) ∧ ((-90:ℚ) ≤ 90 ∧ (90:ℚ) ≤ 90) :=
  ⟨(slider_bounds 360).1
     ⟨by norm_num [j0Slider], by norm_num [j0Slider], 360, by norm_num [j0Slider]⟩,
   (slider_bounds 90).2.1
     ⟨by norm_num [j1Slider], by norm_num [j1Slider], 180, by norm_num [j1Slider]⟩⟩

/-- C4: a pose update delivered in the Uninitialized state (all node
references still null) is a silent no-op — `updateEffect` is total (no
error), the state is unchanged (nothing queued or mutated), and a later
update behaves exactly as if the early one had never happened. -/
theorem preinit_update_noop (b c : Bool) (p q : JointAngles) :
    updateEffect b (some p) initialRefs = initialRefs ∧
    updateEffect c (some q) (updateEffect b (some p) initialRefs) =
      updateEffect c (some q) initialRefs := by
  cases b <;> cases c <;> exact ⟨rfl, rfl⟩

/-- C5: when one joint control changes to `v`, the emitted 4-tuple holds `v`
at the changed joint and exactly the previous value at every other joint. -/
theorem handleJointChange_merge (joints : JointAngles) (k : JointKey) (v : ℚ) :
    (handleJointChange joints k v).get k = v ∧
    ∀ k2, k2 ≠ k → (handleJointChange joints k v).get k2 = joints.get k2 := by
  cases k <;>
    exact ⟨rfl, by
      rintro k2 hk
      cases k2 <;>
        first
          | exact absurd rfl hk
          | rfl⟩

/-- Witness for C5 at the home tuple, changing `j0` to 45. -/
theorem handleJointChange_merge_witness :
    (handleJointChange ⟨0, -60, 20, 30⟩ .j0 45).get .j0 = 45 ∧
    (handleJointChange ⟨0, -60, 20, 30⟩ .j0 45).get .j1 = -60 :=
  ⟨(handleJointChange_merge ⟨0, -60, 20, 30⟩ .j0 45).1,
   (handleJointChange_merge ⟨0, -60, 20, 30⟩ .j0 45).2 .j1 (by decide)⟩

/-- C6: the computed `j4` depends only on the current `j1, j2, j3`: two pose
updates agreeing on those three — whatever their `j0` and whatever the prior
node states left by earlier updates — derive the same `j4` and write the same
`rotation.x` onto the terminal node. -/
theorem derivedJ4_only_pitches (p q : JointAngles) (s1 s2 : NodeRefs)
    (h1 : p.j1 = q.j1) (h2 : p.j2 = q.j2) (h3 : p.j3 = q.j3)
    (hs1 : s1.j4.isSome = true) (hs2 : s2.j4.isSome = true) :
    derivedJ4 p = derivedJ4 q ∧
    (applyPose p s1).j4.map Rotation.x = (applyPose q s2).j4.map Rotation.x := by
  have hd : derivedJ4 p = derivedJ4 q := by
    simp [derivedJ4, calculateVerticalPipetteTilt, h1, h2, h3]
  refine ⟨hd, ?_⟩
  rcases Option.isSome_iff_exists.mp hs1 with ⟨n1, hn1⟩
  rcases Option.isSome_iff_exists.mp hs2 with ⟨n2, hn2⟩
  simp [applyPose, hn1, hn2]
  exact congrArg degToRad hd

/-- Witness for C6: poses `(0, -60, 20, 30)` and `(180, -60, 20, 30)` on two
distinct Ready states derive identical tilts. -/
theorem derivedJ4_only_pitches_witness :
    derivedJ4 ⟨0, -60, 20, 30⟩ = derivedJ4 ⟨180, -60, 20, 30⟩ ∧
    (applyPose ⟨0, -60, 20, 30⟩ createRobotArm).j4.map Rotation.x =
      (applyPose ⟨180, -60, 20, 30⟩ (applyPose ⟨5, 6, 7, 8⟩ createRobotArm)).j4.map
        Rotation.x :=
  derivedJ4_only_pitches ⟨0, -60, 20, 30⟩ ⟨180, -60, 20, 30⟩ createRobotArm
    (applyPose ⟨5, 6, 7, 8⟩ createRobotArm) rfl rfl rfl (by decide) (by decide)

/-- C7: pose application is idempotent — applying the same 4-tuple twice in
succession leaves exactly the transform state the first application produced
(the derived 5-tuple, a pure function of the input, is identical both times).
This holds for every node state, hence in particular in the Ready state. -/
theorem applyPose_idempotent (p : JointAngles) (s : NodeRefs) :
    applyPose p (applyPose p s) = applyPose p s :=
  applyPose_applyPose p p s

/-- C8: the pose applied last wins — after `U1` then `U2`, every rotation
field equals what applying `U2` alone produces; in particular
`U1 = (0,-60,20,30)` then `U2 = (0,0,0,0)` leaves the terminal tilt at 90
degrees. -/
theorem applyPose_last_wins (p1 p2 : JointAngles) (s : NodeRefs) :
    applyPose p2 (applyPose p1 s) = applyPose p2 s ∧
    (applyPose ⟨0, 0, 0, 0⟩ (applyPose ⟨0, -60, 20, 30⟩ createRobotArm)).j4 =
      some ⟨degToRad 90, 0, 0⟩ := by
  refine ⟨applyPose_applyPose p1 p2 s, ?_⟩
  simp only [applyPose, createRobotArm, HOME_POSE, calculateVerticalPipetteTilt, degToRad,
    Option.map_some, Option.some.injEq, Rotation.mk.injEq]
  norm_num

/-- C9: pose application writes each angle only to its own joint's node and
about the correct axis — `j0` to `rotation.y` (vertical axis) of node 0, each
pitch angle to `rotation.x` (horizontal axis) of its own node, the other
Euler components untouched — and each node's outcome depends only on its own
prior node and the angles feeding it, so no other joint's angle ever writes
an ancestor or descendant node. -/
theorem applyPose_axes_local (p p2 : JointAngles) (s s2 : NodeRefs) :
    ((applyPose p s).j0 = s.j0.map fun n => ⟨n.x, degToRad p.j0, n.z⟩) ∧
    ((applyPose p s).j1 = s.j1.map fun n => ⟨degToRad p.j1, n.y, n.z⟩) ∧
    ((applyPose p s).j2 = s.j2.map fun n => ⟨degToRad p.j2, n.y, n.z⟩) ∧
    ((applyPose p s).j3 = s.j3.map fun n => ⟨degToRad p.j3, n.y, n.z⟩) ∧
    ((applyPose p s).j4 = s.j4.map fun n => ⟨degToRad (derivedJ4 p), n.y, n.z⟩) ∧
    (p.j0 = p2.j0 → s.j0 = s2.j0 → (applyPose p s).j0 = (applyPose p2 s2).j0) ∧
    (p.j1 = p2.j1 → s.j1 = s2.j1 → (applyPose p s).j1 = (applyPose p2 s2).j1) ∧
    (p.j2 = p2.j2 → s.j2 = s2.j2 → (applyPose p s).j2 = (applyPose p2 s2).j2) ∧
    (p.j3 = p2.j3 → s.j3 = s2.j3 → (applyPose p s).j3 = (applyPose p2 s2).j3) ∧
    (p.j1 = p2.j1 → p.j2 = p2.j2 → p.j3 = p2.j3 → s.j4 = s2.j4 →
      (applyPose p s).j4 = (applyPose p2 s2).j4) := by
  refine ⟨rfl, rfl, rfl, rfl, rfl, ?_, ?_, ?_, ?_, ?_⟩
  · intro ha hs
    simp [applyPose, ha, hs]
  · intro ha hs
    simp [applyPose, ha, hs]
  · intro ha hs
    simp [applyPose, ha, hs]
  · intro ha hs
    simp [applyPose, ha, hs]
  · intro h1 h2 h3 hs
    simp [applyPose, calculateVerticalPipetteTilt, h1, h2, h3, hs]

/-- Witness for C9: concrete writes on the constructed chain, and the
terminal node is insensitive to a change of `j0` alone. -/
theorem applyPose_axes_local_witness :
    ((applyPose ⟨10, 20, 30, 40⟩ createRobotArm).j0 =
      createRobotArm.j0.map fun n => ⟨n.x, degToRad 10, n.z⟩) ∧
    (applyPose ⟨10, 20, 30, 40⟩ createRobotArm).j4 =
      (applyPose ⟨245, 20, 30, 40⟩ createRobotArm).j4 :=
  ⟨(applyPose_axes_local ⟨10, 20, 30, 40⟩ ⟨245, 20, 30, 40⟩ createRobotArm
      createRobotArm).1,
   (applyPose_axes_local ⟨10, 20, 30, 40⟩ ⟨245, 20, 30, 40⟩ createRobotArm
      createRobotArm).2.2.2.2.2.2.2.2.2 rfl rfl rfl rfl⟩

/-- C10: every rotation value written by pose application is in radians —
interpreting a stored coefficient with `radValue`, the value placed on each
node for an accepted or derived angle `a` in degrees is exactly
`a * π / 180`. -/
theorem rotation_values_radians (a : ℚ) (p : JointAngles) (s : NodeRefs) :
    radValue (degToRad a) = (a : ℝ) * Real.pi / 180 ∧
    ((applyPose p s).j0.map fun n => radValue n.y) =
      (s.j0.map fun _ => (p.j0 : ℝ) * Real.pi / 180) ∧
    ((applyPose p s).j1.map fun n => radValue n.x) =
      (s.j1.map fun _ => (p.j1 : ℝ) * Real.pi / 180) ∧
    ((applyPose p s).j2.map fun n => radValue n.x) =
      (s.j2.map fun _ => (p.j2 : ℝ) * Real.pi / 180) ∧
    ((applyPose p s).j3.map fun n => radValue n.x) =
      (s.j3.map fun _ => (p.j3 : ℝ) * Real.pi / 180) ∧
    ((applyPose p s).j4.map fun n => radValue n.x) =
      (s.j4.map fun _ => (derivedJ4 p : ℝ) * Real.pi / 180) := by
  have key : ∀ q : ℚ, radValue (degToRad q) = (q : ℝ) * Real.pi / 180 := by
    intro q
    simp only [radValue, degToRad]
    push_cast
    ring
  refine ⟨key a, ?_, ?_, ?_, ?_, ?_⟩ <;>
    [rcases hs : s.j0 with _ | n; rcases hs : s.j1 with _ | n;
     rcases hs : s.j2 with _ | n; rcases hs : s.j3 with _ | n;
     rcases hs : s.j4 with _ | n] <;>
    simp [applyPose, hs, key, derivedJ4]

end RobotArm
